import Mathlib

/-!
Shallow embedding of the certificate-lifecycle service (src/models.py,
src/certbot_mock.py, src/app.py).

Timestamps are integers (seconds); `datetime.now(timezone.utc)` is the
explicit clock `now` threaded through each operation, and `time.sleep(d)`
advances it by `d`.  The random source `random.random()` is modelled as an
injectable stream `rand : Nat → ℚ` together with an index `ridx`; one draw
reads `rand ridx` and increments the index.  Python dictionaries and the
SQLAlchemy table are association lists.
-/

namespace Cuttle

abbrev Time := Int

/-- The embedding of `timedelta(days = n)`. -/
def daysT (n : Int) : Time := n * 86400

/-! ## src/models.py -/

/-- The `CertDomain` SQLAlchemy model (src/models.py).  The surrogate `id`
column is omitted; `domain` is the key used by every query in src/app.py. -/
structure CertDomain where
  domain : String
  enabled : Bool
  state : String
  expires_at : Option Time
  created_at : Time
  updated_at : Time
  last_checked : Option Time
  last_error : Option String
deriving DecidableEq, Repr

/-- The method `CertDomain.is_expired` (src/models.py lines 27-36). -/
def CertDomain.is_expired (e : CertDomain) (now : Time) : Bool :=
  match e.expires_at with
  | some t => t < now
  | none => false

/-- The method `CertDomain.is_revoked` (src/models.py lines 38-45). -/
def CertDomain.is_revoked (e : CertDomain) : Bool :=
  e.state == "revoked"

/-- The method `CertDomain.is_valid` (src/models.py lines 47-54). -/
def CertDomain.is_valid (e : CertDomain) (now : Time) : Bool :=
  e.state == "issued" && !(e.is_expired now) && !e.is_revoked

/-! ## src/certbot_mock.py -/

/-- One entry of `CertbotMock.certs` (the per-domain dict created by
`issue_certificate`; `renewed_at`/`revoked_at` keys are added later, hence
`Option`). -/
structure AuthorityRecord where
  status : String
  expires_at : Time
  issued_at : Time
  renewed_at : Option Time
  revoked_at : Option Time
deriving DecidableEq, Repr

/-- State of the `CertbotMock` instance (configuration plus `self.certs`). -/
structure CertbotMock where
  success_rate : ℚ
  delay : Time
  certs : List (String × AuthorityRecord)
deriving DecidableEq

/-- Dictionary read `self.certs[domain]` (`None` when the key is absent). -/
def getCert (cs : List (String × AuthorityRecord)) (d : String) :
    Option AuthorityRecord :=
  (cs.find? (fun p => p.1 == d)).map (fun p => p.2)

/-- Dictionary write `self.certs[domain] = record` (overwrite or insert). -/
def setCert : List (String × AuthorityRecord) → String → AuthorityRecord →
    List (String × AuthorityRecord)
  | [], d, r => [(d, r)]
  | (d0, r0) :: rest, d, r =>
      if d0 = d then (d, r) :: rest else (d0, r0) :: setCert rest d r

/-- In-place update of the fields of `self.certs[domain]`. -/
def updCert (cs : List (String × AuthorityRecord)) (d : String)
    (f : AuthorityRecord → AuthorityRecord) : List (String × AuthorityRecord) :=
  cs.map (fun p => if p.1 = d then (p.1, f p.2) else p)

/-- The method `CertbotMock.issue_certificate` (src/certbot_mock.py lines
36-68): sleep `delay`, then with probability `success_rate` store a fresh
record expiring 90 days from now and return it, else fail. -/
def CertbotMock.issue_certificate (rand : Nat → ℚ) (m : CertbotMock)
    (domain : String) (now : Time) (ridx : Nat) :
    (Bool × Option String × Option Time) × CertbotMock × Time × Nat :=
  let now1 := now + m.delay
  if rand ridx < m.success_rate then
    let expiry := now1 + daysT 90
    let rec0 : AuthorityRecord :=
      { status := "issued", expires_at := expiry, issued_at := now1,
        renewed_at := none, revoked_at := none }
    ((true, none, some expiry),
      { m with certs := setCert m.certs domain rec0 }, now1, ridx + 1)
  else
    ((false, some ("Mock: Failed to complete challenge for " ++ domain), none),
      m, now1, ridx + 1)

/-- The method `CertbotMock.renew_certificate` (src/certbot_mock.py lines
70-105): immediate failure when no record exists (no sleep, no draw); else
sleep, then with probability `success_rate` extend the stored expiry by 90
days (compounding off the prior expiry). -/
def CertbotMock.renew_certificate (rand : Nat → ℚ) (m : CertbotMock)
    (domain : String) (now : Time) (ridx : Nat) :
    (Bool × Option String × Option Time) × CertbotMock × Time × Nat :=
  match getCert m.certs domain with
  | none =>
      ((false, some ("Mock: No certificate found for " ++ domain), none),
        m, now, ridx)
  | some cert =>
      let now1 := now + m.delay
      if rand ridx < m.success_rate then
        let newExpiry := cert.expires_at + daysT 90
        let certs1 := updCert m.certs domain
          (fun c => { c with expires_at := newExpiry, renewed_at := some now1 })
        ((true, none, some newExpiry), { m with certs := certs1 }, now1, ridx + 1)
      else
        ((false, some ("Mock: Failed to renew certificate for " ++ domain),
            none), m, now1, ridx + 1)

/-- The method `CertbotMock.revoke_certificate` (src/certbot_mock.py lines
107-139): immediate failure when no record exists; else sleep, then with
probability `success_rate` flip the status to revoked. -/
def CertbotMock.revoke_certificate (rand : Nat → ℚ) (m : CertbotMock)
    (domain : String) (now : Time) (ridx : Nat) :
    (Bool × Option String) × CertbotMock × Time × Nat :=
  match getCert m.certs domain with
  | none =>
      ((false, some ("Mock: No certificate found for " ++ domain)),
        m, now, ridx)
  | some _ =>
      let now1 := now + m.delay
      if rand ridx < m.success_rate then
        let certs1 := updCert m.certs domain
          (fun c => { c with status := "revoked", revoked_at := some now1 })
        ((true, none), { m with certs := certs1 }, now1, ridx + 1)
      else
        ((false, some ("Mock: Failed to revoke certificate for " ++ domain)),
          m, now1, ridx + 1)

/-- The method `CertbotMock.check_certificate` (src/certbot_mock.py lines
141-171): pure classification, no sleep, no randomness. -/
def CertbotMock.check_certificate (m : CertbotMock) (domain : String)
    (now : Time) : Bool × String × Option Time :=
  match getCert m.certs domain with
  | none => (false, "not_found", none)
  | some cert =>
      if cert.status = "revoked" then (false, "revoked", none)
      else if cert.expires_at < now then (false, "expired", some cert.expires_at)
      else if cert.expires_at < now + daysT 30 then
        (true, "expiring_soon", some cert.expires_at)
      else (true, "valid", some cert.expires_at)

/-! ## src/app.py -/

/-- One row of the declarative transition table. -/
structure Transition where
  trigger : String
  source : String
  dest : String
deriving DecidableEq, Repr

/-- `FSM_STATES` (src/app.py line 60). -/
def FSM_STATES : List String :=
  ["unissued", "requesting", "validating", "issued", "renewing", "renewed",
   "failed", "expired", "revoked", "invalid"]

/-- `FSM_TRANSITIONS` (src/app.py lines 61-70). -/
def FSM_TRANSITIONS : List Transition :=
  [⟨"request_cert", "unissued", "requesting"⟩,
   ⟨"validate_ok", "validating", "issued"⟩,
   ⟨"request_renewal", "issued", "renewing"⟩,
   ⟨"renew_success", "renewing", "renewed"⟩,
   ⟨"expired_detected", "issued", "expired"⟩,
   ⟨"manual_revoke", "*", "revoked"⟩,
   ⟨"invalidate", "*", "invalid"⟩,
   ⟨"continue_cycle", "renewed", "issued"⟩]

/-- Rejection reasons of the raw FSM edge traversal: an event name that is
no declared trigger (an `AttributeError` from `getattr(model, event)` in
src/app.py line 447), or a declared trigger whose sources do not match the
current state (a `MachineError`). -/
inductive TransitionErr where
  | unknownTrigger (event : String)
  | notLegal (event state : String)
deriving DecidableEq, Repr

/-- Modelled from the spec: the event dispatch of `transition_domain`
(src/app.py lines 438-449) is performed by the external `transitions`
library configured with `FSM_STATES`/`FSM_TRANSITIONS`; the library itself
is not part of this repository.  Following the spec (section 4.1),
`apply(state, trigger)` returns the destination of a table row whose
trigger matches and whose source is the current state (exact match checked
before the wildcard), and otherwise fails, distinguishing an unknown
trigger from a trigger that is not legal from the current state. -/
def applyFSM (state event : String) : Except TransitionErr String :=
  let rows := FSM_TRANSITIONS.filter (fun t => t.trigger == event)
  if rows.isEmpty then Except.error (TransitionErr.unknownTrigger event)
  else
    match rows.find? (fun t => t.source == state) with
    | some t => Except.ok t.dest
    | none =>
        match rows.find? (fun t => t.source == "*") with
        | some t => Except.ok t.dest
        | none => Except.error (TransitionErr.notLegal event state)

/-- The taxonomy of `HTTPException`s raised by the routes of src/app.py:
404 for an unknown domain, 400 for a duplicate create, an invalid raw
transition, or a failed orchestration precondition (the latter carrying the
operation name and the current state named in the detail message). -/
inductive ApiError where
  | notFound
  | alreadyExists
  | invalidTransition (e : TransitionErr)
  | invalidPrecondition (op state : String)
deriving DecidableEq, Repr

/-- The whole mutable state of the running service: the `CertDomain` table,
the module-level `certbot` mock, the clock, and the random-stream index. -/
structure World where
  mock : CertbotMock
  db : List CertDomain
  now : Time
  ridx : Nat
deriving DecidableEq

/-- The query `select(CertDomain).where(CertDomain.domain == d)` with
`scalar_one_or_none()`. -/
def findDomain (db : List CertDomain) (d : String) : Option CertDomain :=
  db.find? (fun e => e.domain == d)

/-- Mutate-and-commit of the record(s) whose `domain` column equals `d`. -/
def updateDomain (db : List CertDomain) (d : String)
    (f : CertDomain → CertDomain) : List CertDomain :=
  db.map (fun e => if e.domain = d then f e else e)

/-- The deferred task `perform_certificate_issuance` (src/app.py lines
73-112): write the intermediate `requesting` state, call the mock, then
write the terminal state and timestamps. -/
def perform_certificate_issuance (rand : Nat → ℚ) (w : World)
    (domain : String) : World :=
  match findDomain w.db domain with
  | none => w
  | some _ =>
      let db1 := updateDomain w.db domain
        (fun e => { e with state := "requesting", updated_at := w.now })
      match CertbotMock.issue_certificate rand w.mock domain w.now w.ridx with
      | ((success, error_msg, expires_at), m1, now1, ridx1) =>
          let db2 := updateDomain db1 domain (fun e =>
            let e1 :=
              if success then
                { e with state := "issued", expires_at := expires_at,
                         last_error := none }
              else
                { e with state := "failed", last_error := error_msg }
            { e1 with last_checked := some now1, updated_at := now1 })
          { mock := m1, db := db2, now := now1, ridx := ridx1 }

/-- The deferred task `perform_certificate_renewal` (src/app.py lines
115-154). -/
def perform_certificate_renewal (rand : Nat → ℚ) (w : World)
    (domain : String) : World :=
  match findDomain w.db domain with
  | none => w
  | some _ =>
      let db1 := updateDomain w.db domain
        (fun e => { e with state := "renewing", updated_at := w.now })
      match CertbotMock.renew_certificate rand w.mock domain w.now w.ridx with
      | ((success, error_msg, expires_at), m1, now1, ridx1) =>
          let db2 := updateDomain db1 domain (fun e =>
            let e1 :=
              if success then
                { e with state := "renewed", expires_at := expires_at,
                         last_error := none }
              else
                { e with state := "failed", last_error := error_msg }
            { e1 with last_checked := some now1, updated_at := now1 })
          { mock := m1, db := db2, now := now1, ridx := ridx1 }

/-- The deferred task `perform_certificate_revocation` (src/app.py lines
157-189); unlike issuance and renewal it writes no intermediate state. -/
def perform_certificate_revocation (rand : Nat → ℚ) (w : World)
    (domain : String) : World :=
  match findDomain w.db domain with
  | none => w
  | some _ =>
      match CertbotMock.revoke_certificate rand w.mock domain w.now w.ridx with
      | ((success, error_msg), m1, now1, ridx1) =>
          let db1 := updateDomain w.db domain (fun e =>
            let e1 :=
              if success then { e with state := "revoked", last_error := none }
              else { e with state := "failed", last_error := error_msg }
            { e1 with last_checked := some now1, updated_at := now1 })
          { mock := m1, db := db1, now := now1, ridx := ridx1 }

/-- Payload returned by `check_certificate_status`. -/
structure CheckResp where
  domain : String
  is_valid : Bool
  status : String
  expires_at : Option Time
  state : String
deriving DecidableEq, Repr

/-- The helper `check_certificate_status` (src/app.py lines 192-233):
always refresh `last_checked`; move to `expired` only when the mock reports
expired and the state is not already `expired`; refresh `expires_at` when
the mock returned one; the payload reads the state after the update. -/
def check_certificate_status (w : World) (domain : String) :
    Option CheckResp × World :=
  match findDomain w.db domain with
  | none => (none, w)
  | some entry =>
      match CertbotMock.check_certificate w.mock domain w.now with
      | (is_valid, status, expires_at) =>
          let entry1 := { entry with last_checked := some w.now }
          let entry2 :=
            if status = "expired" ∧ entry1.state ≠ "expired" then
              { entry1 with state := "expired", updated_at := w.now }
            else entry1
          let entry3 :=
            match expires_at with
            | some t => { entry2 with expires_at := some t }
            | none => entry2
          let db1 := updateDomain w.db domain (fun _ => entry3)
          (some { domain := domain, is_valid := is_valid, status := status,
                  expires_at := expires_at, state := entry3.state },
            { w with db := db1 })

/-- The route `add_domain` (src/app.py lines 344-367). -/
def add_domain (w : World) (domain : String) :
    Except ApiError (String × String) × World :=
  match findDomain w.db domain with
  | some _ => (Except.error ApiError.alreadyExists, w)
  | none =>
      let entry : CertDomain :=
        { domain := domain, enabled := true, state := "unissued",
          expires_at := none, created_at := w.now, updated_at := w.now,
          last_checked := none, last_error := none }
      (Except.ok (domain, "unissued"), { w with db := w.db ++ [entry] })

/-- The route `transition_domain` (src/app.py lines 387-460). -/
def transition_domain (w : World) (domain event : String) :
    Except ApiError (String × String) × World :=
  match findDomain w.db domain with
  | none => (Except.error ApiError.notFound, w)
  | some entry =>
      match applyFSM entry.state event with
      | Except.error e => (Except.error (ApiError.invalidTransition e), w)
      | Except.ok new_state =>
          let db1 := updateDomain w.db domain (fun e =>
            { e with state := new_state, last_checked := some w.now,
                     updated_at := w.now })
          (Except.ok (domain, new_state), { w with db := db1 })

/-- The route `issue_certificate` (src/app.py lines 465-488) composed with
the background task it schedules: 404 on an unknown domain, 400 when the
state is outside the allowed set (the task is then never scheduled and the
world is returned untouched), else run the deferred issuance. -/
def issue_certificate (rand : Nat → ℚ) (w : World) (domain : String) :
    Except ApiError (String × String) × World :=
  match findDomain w.db domain with
  | none => (Except.error ApiError.notFound, w)
  | some entry =>
      if entry.state ∈ (["unissued", "failed", "expired"] : List String) then
        (Except.ok ("started", entry.state),
          perform_certificate_issuance rand w domain)
      else
        (Except.error (ApiError.invalidPrecondition ("issue") entry.state), w)

/-- The route `renew_certificate` (src/app.py lines 491-514) composed with
its background task. -/
def renew_certificate (rand : Nat → ℚ) (w : World) (domain : String) :
    Except ApiError (String × String) × World :=
  match findDomain w.db domain with
  | none => (Except.error ApiError.notFound, w)
  | some entry =>
      if entry.state ∈ (["issued"] : List String) then
        (Except.ok ("started", entry.state),
          perform_certificate_renewal rand w domain)
      else
        (Except.error (ApiError.invalidPrecondition ("renew") entry.state), w)

/-- The route `revoke_certificate` (src/app.py lines 517-540) composed with
its background task. -/
def revoke_certificate (rand : Nat → ℚ) (w : World) (domain : String) :
    Except ApiError (String × String) × World :=
  match findDomain w.db domain with
  | none => (Except.error ApiError.notFound, w)
  | some entry =>
      if entry.state ∈ (["issued", "renewed"] : List String) then
        (Except.ok ("started", entry.state),
          perform_certificate_revocation rand w domain)
      else
        (Except.error (ApiError.invalidPrecondition ("revoke") entry.state), w)

/-- The state-affecting API surface, one constructor per endpoint (the
read-only listing included for completeness). -/
inductive ApiOp where
  | addDomain (domain : String)
  | listDomains
  | transition (domain event : String)
  | issue (domain : String)
  | renew (domain : String)
  | revoke (domain : String)
  | check (domain : String)
deriving DecidableEq, Repr

/-- Effect of one API operation (deferred work included) on the world. -/
def applyOp (rand : Nat → ℚ) (w : World) : ApiOp → World
  | ApiOp.addDomain d => (add_domain w d).2
  | ApiOp.listDomains => w
  | ApiOp.transition d e => (transition_domain w d e).2
  | ApiOp.issue d => (issue_certificate rand w d).2
  | ApiOp.renew d => (renew_certificate rand w d).2
  | ApiOp.revoke d => (revoke_certificate rand w d).2
  | ApiOp.check d => (check_certificate_status w d).2

/-- Domain argument of an API operation (none for the listing). -/
def opDomain : ApiOp → Option String
  | ApiOp.addDomain d => some d
  | ApiOp.listDomains => none
  | ApiOp.transition d _ => some d
  | ApiOp.issue d => some d
  | ApiOp.renew d => some d
  | ApiOp.revoke d => some d
  | ApiOp.check d => some d

/-- The spec invariant `state ∈ FSM_STATES`, read over the whole table. -/
abbrev dbStatesValid (db : List CertDomain) : Prop :=
  ∀ e ∈ db, e.state ∈ FSM_STATES

/-! ## Helper lemmas about the embedding -/

lemma findDomain_domain_eq {db : List CertDomain} {d : String} {e : CertDomain}
    (h : findDomain db d = some e) : e.domain = d := by
  have h1 := List.find?_some (by simpa [findDomain] using h)
  simpa using h1

lemma findDomain_mem {db : List CertDomain} {d : String} {e : CertDomain}
    (h : findDomain db d = some e) : e ∈ db :=
  List.mem_of_find?_eq_some (by simpa [findDomain] using h)

lemma updateDomain_cons (a : CertDomain) (rest : List CertDomain) (d : String)
    (f : CertDomain → CertDomain) :
    updateDomain (a :: rest) d f =
      (if a.domain = d then f a else a) :: updateDomain rest d f := rfl

lemma findDomain_updateDomain (db : List CertDomain) (d : String)
    (f : CertDomain → CertDomain)
    (hf : ∀ e : CertDomain, e.domain = d → (f e).domain = d) :
    findDomain (updateDomain db d f) d = (findDomain db d).map f := by
  induction db with
  | nil => rfl
  | cons a rest ih =>
      rw [updateDomain_cons]
      by_cases h : a.domain = d
      · rw [if_pos h]
        unfold findDomain
        rw [List.find?_cons_of_pos _ (by simp [hf a h]),
          List.find?_cons_of_pos _ (by simp [h])]
        rfl
      · rw [if_neg h]
        unfold findDomain
        rw [List.find?_cons_of_neg _ (by simp [h]),
          List.find?_cons_of_neg _ (by simp [h])]
        exact ih

lemma getCert_setCert (cs : List (String × AuthorityRecord)) (d : String)
    (r : AuthorityRecord) : getCert (setCert cs d r) d = some r := by
  induction cs with
  | nil =>
      unfold getCert setCert
      rw [List.find?_cons_of_pos _ (by simp)]
      rfl
  | cons p rest ih =>
      obtain ⟨d0, r0⟩ := p
      by_cases h : d0 = d
      · simp only [setCert, if_pos h]
        unfold getCert
        rw [List.find?_cons_of_pos _ (by simp)]
        rfl
      · simp only [setCert, if_neg h]
        unfold getCert
        rw [List.find?_cons_of_neg _ (by simp [h])]
        exact ih

lemma updCert_cons (p : String × AuthorityRecord)
    (rest : List (String × AuthorityRecord)) (d : String)
    (f : AuthorityRecord → AuthorityRecord) :
    updCert (p :: rest) d f =
      (if p.1 = d then (p.1, f p.2) else p) :: updCert rest d f := rfl

lemma getCert_updCert (cs : List (String × AuthorityRecord)) (d : String)
    (f : AuthorityRecord → AuthorityRecord) :
    getCert (updCert cs d f) d = (getCert cs d).map f := by
  induction cs with
  | nil => rfl
  | cons p rest ih =>
      obtain ⟨d0, r0⟩ := p
      rw [updCert_cons]
      by_cases h : d0 = d
      · simp only [if_pos h]
        unfold getCert
        rw [List.find?_cons_of_pos _ (by simpa using h),
          List.find?_cons_of_pos _ (by simpa using h)]
        rfl
      · simp only [if_neg h]
        unfold getCert
        rw [List.find?_cons_of_neg _ (by simp [h]),
          List.find?_cons_of_neg _ (by simp [h])]
        exact ih

lemma mem_FSM_TRANSITIONS_dest {t : Transition} (ht : t ∈ FSM_TRANSITIONS) :
    t.dest ∈ FSM_STATES := by
  fin_cases ht <;> decide

lemma applyFSM_ok_mem {s ev d : String} (h : applyFSM s ev = Except.ok d) :
    ∃ t ∈ FSM_TRANSITIONS,
      t.trigger = ev ∧ (t.source = s ∨ t.source = "*") ∧ t.dest = d := by
  unfold applyFSM at h
  by_cases hemp : (FSM_TRANSITIONS.filter (fun t => t.trigger == ev)).isEmpty
  · rw [if_pos hemp] at h; cases h
  · rw [if_neg hemp] at h
    cases hfind : (FSM_TRANSITIONS.filter (fun t => t.trigger == ev)).find?
        (fun t => t.source == s) with
    | some t =>
        rw [hfind] at h
        have hts := List.find?_some hfind
        have htm := List.mem_of_find?_eq_some hfind
        rw [List.mem_filter] at htm
        refine ⟨t, htm.1, by simpa using htm.2, Or.inl (by simpa using hts), ?_⟩
        cases h; rfl
    | none =>
        rw [hfind] at h
        cases hfind2 : (FSM_TRANSITIONS.filter (fun t => t.trigger == ev)).find?
            (fun t => t.source == "*") with
        | some t =>
            rw [hfind2] at h
            have hts := List.find?_some hfind2
            have htm := List.mem_of_find?_eq_some hfind2
            rw [List.mem_filter] at htm
            refine ⟨t, htm.1, by simpa using htm.2, Or.inr (by simpa using hts), ?_⟩
            cases h; rfl
        | none => rw [hfind2] at h; cases h

lemma applyFSM_ok_dest_mem {s ev d : String} (h : applyFSM s ev = Except.ok d) :
    d ∈ FSM_STATES := by
  obtain ⟨t, htmem, _, _, hdest⟩ := applyFSM_ok_mem h
  subst hdest
  exact mem_FSM_TRANSITIONS_dest htmem

lemma applyFSM_of_exists {s ev : String}
    (h : ∃ t ∈ FSM_TRANSITIONS, t.trigger = ev ∧ (t.source = s ∨ t.source = "*")) :
    ∃ d, applyFSM s ev = Except.ok d := by
  obtain ⟨t, htmem, htrig, hsrc⟩ := h
  have hrowmem : t ∈ FSM_TRANSITIONS.filter (fun t => t.trigger == ev) := by
    rw [List.mem_filter]
    exact ⟨htmem, by simpa using htrig⟩
  unfold applyFSM
  have hemp : ¬ (FSM_TRANSITIONS.filter (fun t => t.trigger == ev)).isEmpty := by
    intro hc
    rw [List.isEmpty_iff] at hc
    rw [hc] at hrowmem
    cases hrowmem
  rw [if_neg hemp]
  cases hfind : (FSM_TRANSITIONS.filter (fun t => t.trigger == ev)).find?
      (fun t => t.source == s) with
  | some t2 => exact ⟨t2.dest, rfl⟩
  | none =>
      have hsrc2 : t.source = "*" := by
        rcases hsrc with h1 | h1
        · exfalso
          rw [List.find?_eq_none] at hfind
          exact (by simpa [h1] using hfind t hrowmem)
        · exact h1
      cases hfind2 : (FSM_TRANSITIONS.filter (fun t => t.trigger == ev)).find?
          (fun t => t.source == "*") with
      | some t3 => exact ⟨t3.dest, rfl⟩
      | none =>
          exfalso
          rw [List.find?_eq_none] at hfind2
          exact (by simpa [hsrc2] using hfind2 t hrowmem)

lemma applyFSM_unknown {s ev : String}
    (h : ∀ t ∈ FSM_TRANSITIONS, t.trigger ≠ ev) :
    applyFSM s ev = Except.error (TransitionErr.unknownTrigger ev) := by
  have hnil : FSM_TRANSITIONS.filter (fun t => t.trigger == ev) = [] := by
    rw [List.filter_eq_nil_iff]
    intro a ha
    simpa using h a ha
  unfold applyFSM
  rw [hnil]
  rfl

lemma applyFSM_notLegal {s ev : String}
    (hknown : ∃ t ∈ FSM_TRANSITIONS, t.trigger = ev)
    (h : ∀ t ∈ FSM_TRANSITIONS, t.trigger = ev → t.source ≠ s ∧ t.source ≠ "*") :
    applyFSM s ev = Except.error (TransitionErr.notLegal ev s) := by
  obtain ⟨t0, ht0mem, ht0⟩ := hknown
  have hrowmem : t0 ∈ FSM_TRANSITIONS.filter (fun t => t.trigger == ev) := by
    rw [List.mem_filter]
    exact ⟨ht0mem, by simpa using ht0⟩
  unfold applyFSM
  have hemp : ¬ (FSM_TRANSITIONS.filter (fun t => t.trigger == ev)).isEmpty := by
    intro hc
    rw [List.isEmpty_iff] at hc
    rw [hc] at hrowmem
    cases hrowmem
  rw [if_neg hemp]
  have hn1 : (FSM_TRANSITIONS.filter (fun t => t.trigger == ev)).find?
      (fun t => t.source == s) = none := by
    rw [List.find?_eq_none]
    intro a ha
    rw [List.mem_filter] at ha
    have := h a ha.1 (by simpa using ha.2)
    simpa using this.1
  have hn2 : (FSM_TRANSITIONS.filter (fun t => t.trigger == ev)).find?
      (fun t => t.source == "*") = none := by
    rw [List.find?_eq_none]
    intro a ha
    rw [List.mem_filter] at ha
    have := h a ha.1 (by simpa using ha.2)
    simpa using this.2
  rw [hn1, hn2]

lemma dbStatesValid_updateDomain {db : List CertDomain} {d : String}
    {f : CertDomain → CertDomain} (h : dbStatesValid db)
    (hf : ∀ e ∈ db, (f e).state ∈ FSM_STATES) :
    dbStatesValid (updateDomain db d f) := by
  intro e he
  simp only [updateDomain, List.mem_map] at he
  obtain ⟨a, ha, rfl⟩ := he
  by_cases hd : a.domain = d
  · simpa [hd] using hf a ha
  · simpa [hd] using h a ha

lemma perform_issuance_states (rand : Nat → ℚ) (w : World) (d : String)
    (h : dbStatesValid w.db) :
    dbStatesValid (perform_certificate_issuance rand w d).db := by
  unfold perform_certificate_issuance
  cases hf : findDomain w.db d with
  | none => simpa using h
  | some entry =>
      rcases hm : CertbotMock.issue_certificate rand w.mock d w.now w.ridx with
        ⟨⟨succ, em, ea⟩, m1, now1, ridx1⟩
      simp only [hm]
      have h1 : dbStatesValid (updateDomain w.db d
          (fun e => { e with state := "requesting", updated_at := w.now })) :=
        dbStatesValid_updateDomain h (fun e _ => by
          show ("requesting" ∈ FSM_STATES)
          decide)
      refine dbStatesValid_updateDomain h1 ?_
      intro e _
      cases succ <;> simp [FSM_STATES]

lemma perform_renewal_states (rand : Nat → ℚ) (w : World) (d : String)
    (h : dbStatesValid w.db) :
    dbStatesValid (perform_certificate_renewal rand w d).db := by
  unfold perform_certificate_renewal
  cases hf : findDomain w.db d with
  | none => simpa using h
  | some entry =>
      rcases hm : CertbotMock.renew_certificate rand w.mock d w.now w.ridx with
        ⟨⟨succ, em, ea⟩, m1, now1, ridx1⟩
      simp only [hm]
      have h1 : dbStatesValid (updateDomain w.db d
          (fun e => { e with state := "renewing", updated_at := w.now })) :=
        dbStatesValid_updateDomain h (fun e _ => by
          show ("renewing" ∈ FSM_STATES)
          decide)
      refine dbStatesValid_updateDomain h1 ?_
      intro e _
      cases succ <;> simp [FSM_STATES]

lemma perform_revocation_states (rand : Nat → ℚ) (w : World) (d : String)
    (h : dbStatesValid w.db) :
    dbStatesValid (perform_certificate_revocation rand w d).db := by
  unfold perform_certificate_revocation
  cases hf : findDomain w.db d with
  | none => simpa using h
  | some entry =>
      rcases hm : CertbotMock.revoke_certificate rand w.mock d w.now w.ridx with
        ⟨⟨succ, em⟩, m1, now1, ridx1⟩
      simp only [hm]
      refine dbStatesValid_updateDomain h ?_
      intro e _
      cases succ <;> simp [FSM_STATES]

lemma check_status_states (w : World) (d : String) (h : dbStatesValid w.db) :
    dbStatesValid (check_certificate_status w d).2.db := by
  unfold check_certificate_status
  cases hf : findDomain w.db d with
  | none => simpa using h
  | some entry =>
      rcases hm : CertbotMock.check_certificate w.mock d w.now with ⟨iv, st, ea⟩
      simp only [hm]
      have hentry : entry ∈ w.db := findDomain_mem hf
      refine dbStatesValid_updateDomain h ?_
      intro e _
      have hst : entry.state ∈ FSM_STATES := h entry hentry
      cases ea <;> split_ifs <;>
        first
          | (show ("expired" ∈ FSM_STATES); decide)
          | simpa using hst

lemma applyFSM_terminal {s ev d : String} (hs : s = "revoked" ∨ s = "invalid")
    (h : applyFSM s ev = Except.ok d) : d = "revoked" ∨ d = "invalid" := by
  obtain ⟨t, htmem, htrig, hsrc, hdest⟩ := applyFSM_ok_mem h
  subst hdest
  rcases hsrc with h1 | h1
  · exfalso
    rcases hs with rfl | rfl <;> (fin_cases htmem <;> simp_all)
  · fin_cases htmem <;> simp_all

/-! ## Claims -/

/-- C10: the record's own validity helper returns true iff the state is
exactly `issued` and `expires_at` is absent or not in the past; in
particular a record in state `renewed` is reported invalid even when its
expiry lies in the future. -/
theorem is_valid_characterization (e : CertDomain) (now : Time) :
    (e.is_valid now = true ↔
      (e.state = "issued" ∧
        (e.expires_at = none ∨ ∃ t, e.expires_at = some t ∧ ¬ t < now)))
    ∧ (e.state = "renewed" → e.is_valid now = false) := by
  constructor
  · cases he : e.expires_at with
    | none =>
        simp only [CertDomain.is_valid, CertDomain.is_expired,
          CertDomain.is_revoked, he]
        constructor
        · intro h
          simp only [Bool.and_eq_true, beq_iff_eq, Bool.not_eq_true'] at h
          exact ⟨h.1.1, Or.inl trivial⟩
        · intro h
          simp [h.1]
    | some t =>
        simp only [CertDomain.is_valid, CertDomain.is_expired,
          CertDomain.is_revoked, he]
        constructor
        · intro h
          simp only [Bool.and_eq_true, beq_iff_eq, Bool.not_eq_true',
            decide_eq_false_iff_not] at h
          exact ⟨h.1.1, Or.inr ⟨t, rfl, h.1.2⟩⟩
        · rintro ⟨h1, h2⟩
          rcases h2 with h2 | ⟨t2, ht2, hlt⟩
          · cases h2
          · have : t2 = t := by
              injection ht2.symm
            subst this
            simp [h1, hlt]
  · intro h
    simp [CertDomain.is_valid, h]

/-- C10 witness: a record in state `renewed` whose expiry is far in the
future is still reported invalid. -/
theorem is_valid_characterization_witness :
    CertDomain.is_valid
      { domain := "example.com", enabled := true, state := "renewed",
        expires_at := some 1000000, created_at := 0, updated_at := 0,
        last_checked := none, last_error := none } 5 = false :=
  (is_valid_characterization
    { domain := "example.com", enabled := true, state := "renewed",
      expires_at := some 1000000, created_at := 0, updated_at := 0,
      last_checked := none, last_error := none } 5).2 rfl

/-- C3: the authority check returns not_found when no record exists,
revoked for a revoked record regardless of expiry, expired when the stored
expiry precedes now, expiring_soon within the 30-day horizon, valid beyond
it, and the boolean flag is true exactly for the valid and expiring_soon
outcomes. -/
theorem check_certificate_classification (m : CertbotMock) (domain : String)
    (now : Time) :
    (getCert m.certs domain = none →
      CertbotMock.check_certificate m domain now = (false, "not_found", none))
    ∧ (∀ cert, getCert m.certs domain = some cert →
        (cert.status = "revoked" →
          CertbotMock.check_certificate m domain now = (false, "revoked", none))
        ∧ (cert.status ≠ "revoked" →
            (cert.expires_at < now →
              CertbotMock.check_certificate m domain now =
                (false, "expired", some cert.expires_at))
            ∧ (now ≤ cert.expires_at → cert.expires_at < now + daysT 30 →
                CertbotMock.check_certificate m domain now =
                  (true, "expiring_soon", some cert.expires_at))
            ∧ (now + daysT 30 ≤ cert.expires_at →
                CertbotMock.check_certificate m domain now =
                  (true, "valid", some cert.expires_at))))
    ∧ ((CertbotMock.check_certificate m domain now).1 = true ↔
        ((CertbotMock.check_certificate m domain now).2.1 = "valid" ∨
          (CertbotMock.check_certificate m domain now).2.1 = "expiring_soon")) := by
  refine ⟨?_, ?_, ?_⟩
  · intro h
    simp [CertbotMock.check_certificate, h]
  · intro cert hc
    refine ⟨?_, ?_⟩
    · intro hrev
      simp [CertbotMock.check_certificate, hc, hrev]
    · intro hrev
      refine ⟨?_, ?_, ?_⟩
      · intro hexp
        simp [CertbotMock.check_certificate, hc, hrev, hexp]
      · intro h1 h2
        have hnot : ¬ cert.expires_at < now := not_lt.mpr h1
        simp [CertbotMock.check_certificate, hc, hrev, hnot, h2]
      · intro h1
        have h30 : (0 : Int) ≤ daysT 30 := by norm_num [daysT]
        have hnot : ¬ cert.expires_at < now := not_lt.mpr (by linarith)
        have hnot2 : ¬ cert.expires_at < now + daysT 30 := not_lt.mpr h1
        simp [CertbotMock.check_certificate, hc, hrev, hnot, hnot2]
  · cases hget : getCert m.certs domain with
    | none => simp [CertbotMock.check_certificate, hget]
    | some cert =>
        simp only [CertbotMock.check_certificate, hget]
        split_ifs <;> simp

/-- C3 witness: a stored certificate that expired at time 10 is classified
expired at time 100. -/
theorem check_certificate_classification_witness :
    CertbotMock.check_certificate
      { success_rate := 1, delay := 1,
        certs := [("example.com",
          { status := "issued", expires_at := 10, issued_at := 0,
            renewed_at := none, revoked_at := none })] }
      "example.com" 100 = (false, "expired", some 10) :=
  (((check_certificate_classification
      { success_rate := 1, delay := 1,
        certs := [("example.com",
          { status := "issued", expires_at := 10, issued_at := 0,
            renewed_at := none, revoked_at := none })] }
      "example.com" 100).2.1
    { status := "issued", expires_at := 10, issued_at := 0,
      renewed_at := none, revoked_at := none } (by decide)).2
    (by decide)).1 (by decide)

/-- C8: renew and revoke against a domain with no authority record fail
immediately with a no-certificate-found error: the clock is not advanced
(no simulated delay), the random index is not advanced (no draw), and the
authority state is unchanged. -/
theorem renew_revoke_missing_record (rand : Nat → ℚ) (m : CertbotMock)
    (domain : String) (now : Time) (ridx : Nat)
    (h : getCert m.certs domain = none) :
    CertbotMock.renew_certificate rand m domain now ridx =
      ((false, some ("Mock: No certificate found for " ++ domain), none),
        m, now, ridx)
    ∧ CertbotMock.revoke_certificate rand m domain now ridx =
      ((false, some ("Mock: No certificate found for " ++ domain)),
        m, now, ridx) := by
  constructor
  · simp [CertbotMock.renew_certificate, h]
  · simp [CertbotMock.revoke_certificate, h]

/-- C8 witness: renew and revoke on an empty authority store fail without
touching the clock, the random index, or the store. -/
theorem renew_revoke_missing_record_witness :
    CertbotMock.renew_certificate (fun _ => 0)
      { success_rate := 1, delay := 7, certs := [] } "example.com" 3 5 =
      ((false, some ("Mock: No certificate found for example.com"), none),
        { success_rate := 1, delay := 7, certs := [] }, 3, 5)
    ∧ CertbotMock.revoke_certificate (fun _ => 0)
      { success_rate := 1, delay := 7, certs := [] } "example.com" 3 5 =
      ((false, some ("Mock: No certificate found for example.com")),
        { success_rate := 1, delay := 7, certs := [] }, 3, 5) := by
  have h := renew_revoke_missing_record (fun _ => 0)
    { success_rate := 1, delay := 7, certs := [] } "example.com" 3 5 (by decide)
  simpa using h

/-- C2: for an existing domain, Issue rejects with the precondition error
(naming the current state) exactly when the state is outside
`{unissued, failed, expired}`, Renew exactly when it is not `issued`,
Revoke exactly when it is outside `{issued, renewed}`; in each rejection
the returned world is the input world, so no authority call is scheduled
and the record is unchanged. -/
theorem orchestration_preconditions (rand : Nat → ℚ) (w : World)
    (domain : String) (entry : CertDomain)
    (h : findDomain w.db domain = some entry) :
    (entry.state ∉ (["unissued", "failed", "expired"] : List String) ↔
      issue_certificate rand w domain =
        (Except.error (ApiError.invalidPrecondition ("issue") entry.state), w))
    ∧ (entry.state ∉ (["issued"] : List String) ↔
      renew_certificate rand w domain =
        (Except.error (ApiError.invalidPrecondition ("renew") entry.state), w))
    ∧ (entry.state ∉ (["issued", "renewed"] : List String) ↔
      revoke_certificate rand w domain =
        (Except.error (ApiError.invalidPrecondition ("revoke") entry.state), w)) := by
  refine ⟨?_, ?_, ?_⟩
  · by_cases hs : entry.state ∈ (["unissued", "failed", "expired"] : List String)
    · simp [issue_certificate, h, hs]
    · simp [issue_certificate, h, hs]
  · by_cases hs : entry.state ∈ (["issued"] : List String)
    · simp [renew_certificate, h, hs]
    · simp [renew_certificate, h, hs]
  · by_cases hs : entry.state ∈ (["issued", "renewed"] : List String)
    · simp [revoke_certificate, h, hs]
    · simp [revoke_certificate, h, hs]

/-- C2 witness: a record in state `validating` is rejected by all three
orchestrated operations and the world is untouched. -/
theorem orchestration_preconditions_witness :
    issue_certificate (fun _ => 0)
      { mock := { success_rate := 1, delay := 1, certs := [] },
        db := [{ domain := "example.com", enabled := true,
                 state := "validating", expires_at := none, created_at := 0,
                 updated_at := 0, last_checked := none, last_error := none }],
        now := 0, ridx := 0 } "example.com" =
      (Except.error (ApiError.invalidPrecondition ("issue") "validating"),
        { mock := { success_rate := 1, delay := 1, certs := [] },
          db := [{ domain := "example.com", enabled := true,
                   state := "validating", expires_at := none, created_at := 0,
                   updated_at := 0, last_checked := none, last_error := none }],
          now := 0, ridx := 0 }) := by
  have h := orchestration_preconditions (fun _ => 0)
    { mock := { success_rate := 1, delay := 1, certs := [] },
      db := [{ domain := "example.com", enabled := true,
               state := "validating", expires_at := none, created_at := 0,
               updated_at := 0, last_checked := none, last_error := none }],
      now := 0, ridx := 0 } "example.com"
    { domain := "example.com", enabled := true, state := "validating",
      expires_at := none, created_at := 0, updated_at := 0,
      last_checked := none, last_error := none } (by decide)
  exact h.1.mp (by decide)

/-- C9: for an existing domain, the generic transition endpoint succeeds
exactly when some table row has the requested trigger and a source equal to
the current state or the wildcard; on success it returns a matching row's
destination and persists it (refreshing the timestamps); with no row naming
the trigger it rejects with the unknown-trigger error, and with rows naming
the trigger but none matching the state it rejects with the
not-legal-from-state error, the world untouched in both rejections. -/
theorem generic_transition_characterization (w : World) (domain event : String)
    (entry : CertDomain) (h : findDomain w.db domain = some entry) :
    ((∃ t ∈ FSM_TRANSITIONS, t.trigger = event ∧
        (t.source = entry.state ∨ t.source = "*")) ↔
      ∃ dest, (transition_domain w domain event).1 = Except.ok (domain, dest))
    ∧ (∀ dest, (transition_domain w domain event).1 = Except.ok (domain, dest) →
        (∃ t ∈ FSM_TRANSITIONS, t.trigger = event ∧
          (t.source = entry.state ∨ t.source = "*") ∧ t.dest = dest)
        ∧ findDomain (transition_domain w domain event).2.db domain =
            some { entry with state := dest, last_checked := some w.now, updated_at := w.now })
    ∧ ((∀ t ∈ FSM_TRANSITIONS, t.trigger ≠ event) →
        transition_domain w domain event =
          (Except.error (ApiError.invalidTransition
            (TransitionErr.unknownTrigger event)), w))
    ∧ ((∃ t ∈ FSM_TRANSITIONS, t.trigger = event) →
        (∀ t ∈ FSM_TRANSITIONS, t.trigger = event →
          t.source ≠ entry.state ∧ t.source ≠ "*") →
        transition_domain w domain event =
          (Except.error (ApiError.invalidTransition
            (TransitionErr.notLegal event entry.state)), w)) := by
  refine ⟨?_, ?_, ?_, ?_⟩
  · constructor
    · intro hex
      obtain ⟨d, ha⟩ := applyFSM_of_exists hex
      exact ⟨d, by simp [transition_domain, h, ha]⟩
    · rintro ⟨dest, hok⟩
      cases ha : applyFSM entry.state event with
      | error e0 => simp [transition_domain, h, ha] at hok
      | ok ns =>
          obtain ⟨t, htmem, htrig, hsrc, _⟩ := applyFSM_ok_mem ha
          exact ⟨t, htmem, htrig, hsrc⟩
  · intro dest hok
    cases ha : applyFSM entry.state event with
    | error e0 => simp [transition_domain, h, ha] at hok
    | ok ns =>
        have hns : ns = dest := by
          simpa [transition_domain, h, ha] using hok
        subst hns
        refine ⟨applyFSM_ok_mem ha, ?_⟩
        have hupd := findDomain_updateDomain w.db domain
          (fun e => { e with state := ns, last_checked := some w.now, updated_at := w.now })
          (fun e he => by simpa using he)
        simp only [transition_domain, h, ha]
        rw [hupd, h]
        rfl
  · intro hunk
    have ha := applyFSM_unknown (s := entry.state) hunk
    simp [transition_domain, h, ha]
  · intro hknown hnl
    have ha := applyFSM_notLegal hknown hnl
    simp [transition_domain, h, ha]

/-- C9 witness: an undeclared event name is rejected as an unknown trigger
with the world untouched. -/
theorem generic_transition_characterization_witness :
    transition_domain
      { mock := { success_rate := 1, delay := 1, certs := [] },
        db := [{ domain := "example.com", enabled := true,
                 state := "unissued", expires_at := none, created_at := 0,
                 updated_at := 0, last_checked := none, last_error := none }],
        now := 0, ridx := 0 } "example.com" "bogus_event" =
      (Except.error (ApiError.invalidTransition
        (TransitionErr.unknownTrigger ("bogus_event"))),
        { mock := { success_rate := 1, delay := 1, certs := [] },
          db := [{ domain := "example.com", enabled := true,
                   state := "unissued", expires_at := none, created_at := 0,
                   updated_at := 0, last_checked := none, last_error := none }],
          now := 0, ridx := 0 }) := by
  have h := generic_transition_characterization
    { mock := { success_rate := 1, delay := 1, certs := [] },
      db := [{ domain := "example.com", enabled := true,
               state := "unissued", expires_at := none, created_at := 0,
               updated_at := 0, last_checked := none, last_error := none }],
      now := 0, ridx := 0 } "example.com" "bogus_event"
    { domain := "example.com", enabled := true, state := "unissued",
      expires_at := none, created_at := 0, updated_at := 0,
      last_checked := none, last_error := none } (by decide)
  exact h.2.2.1 (by decide)

/-- C1: every API operation (create, list, generic transition, the
deferred issue/renew/revoke flows, and check) preserves the invariant that
every record's state is one of the ten declared FSM states. -/
theorem states_invariant (rand : Nat → ℚ) (w : World) (op : ApiOp)
    (h : dbStatesValid w.db) : dbStatesValid (applyOp rand w op).db := by
  cases op with
  | addDomain d =>
      simp only [applyOp, add_domain]
      cases hf : findDomain w.db d with
      | some e => simpa using h
      | none =>
          simp only
          intro e he
          simp only [List.mem_append, List.mem_singleton] at he
          rcases he with h1 | h1
          · exact h e h1
          · subst h1
            show ("unissued" ∈ FSM_STATES)
            decide
  | listDomains => simpa [applyOp] using h
  | transition d ev =>
      simp only [applyOp, transition_domain]
      cases hf : findDomain w.db d with
      | none => simpa using h
      | some entry =>
          dsimp only
          cases ha : applyFSM entry.state ev with
          | error e0 => exact h
          | ok ns =>
              exact dbStatesValid_updateDomain h
                (fun e _ => applyFSM_ok_dest_mem ha)
  | issue d =>
      simp only [applyOp, issue_certificate]
      cases hf : findDomain w.db d with
      | none => simpa using h
      | some entry =>
          dsimp only
          split_ifs with hs
          · exact perform_issuance_states rand w d h
          · exact h
  | renew d =>
      simp only [applyOp, renew_certificate]
      cases hf : findDomain w.db d with
      | none => simpa using h
      | some entry =>
          dsimp only
          split_ifs with hs
          · exact perform_renewal_states rand w d h
          · exact h
  | revoke d =>
      simp only [applyOp, revoke_certificate]
      cases hf : findDomain w.db d with
      | none => simpa using h
      | some entry =>
          dsimp only
          split_ifs with hs
          · exact perform_revocation_states rand w d h
          · exact h
  | check d =>
      simpa [applyOp] using check_status_states w d h

/-- C1 witness: a create on a one-record table keeps every state inside
the declared state set. -/
theorem states_invariant_witness :
    dbStatesValid (applyOp (fun _ => 0)
      { mock := { success_rate := 1, delay := 1, certs := [] },
        db := [{ domain := "a.com", enabled := true, state := "issued",
                 expires_at := none, created_at := 0, updated_at := 0,
                 last_checked := none, last_error := none }],
        now := 0, ridx := 0 } (ApiOp.addDomain ("b.com"))).db :=
  states_invariant (fun _ => 0)
    { mock := { success_rate := 1, delay := 1, certs := [] },
      db := [{ domain := "a.com", enabled := true, state := "issued",
               expires_at := none, created_at := 0, updated_at := 0,
               last_checked := none, last_error := none }],
      now := 0, ridx := 0 } (ApiOp.addDomain ("b.com")) (by decide)

/-- C4: when the authority holds a record with stored expiry T and the
domain record is in state `issued`, a successful orchestrated Renew (draw
below the success rate) stores authority expiry exactly T + 90 days
(compounding off the prior stored expiry, not off the clock) and persists
that value as the record's `expires_at` with state `renewed`. -/
theorem renew_compounds_prior_expiry (rand : Nat → ℚ) (w : World)
    (domain : String) (entry : CertDomain) (cert : AuthorityRecord)
    (hentry : findDomain w.db domain = some entry)
    (hstate : entry.state = "issued")
    (hcert : getCert w.mock.certs domain = some cert)
    (hsucc : rand w.ridx < w.mock.success_rate) :
    findDomain (renew_certificate rand w domain).2.db domain =
      some { domain := entry.domain, enabled := entry.enabled,
             state := "renewed",
             expires_at := some (cert.expires_at + daysT 90),
             created_at := entry.created_at,
             updated_at := w.now + w.mock.delay,
             last_checked := some (w.now + w.mock.delay),
             last_error := none }
    ∧ getCert (renew_certificate rand w domain).2.mock.certs domain =
      some { status := cert.status, expires_at := cert.expires_at + daysT 90,
             issued_at := cert.issued_at, renewed_at := some (w.now + w.mock.delay),
             revoked_at := cert.revoked_at } := by
  have hmem : entry.state ∈ (["issued"] : List String) := by simp [hstate]
  simp only [renew_certificate, hentry]
  rw [if_pos hmem]
  simp only [perform_certificate_renewal, hentry]
  simp only [CertbotMock.renew_certificate, hcert]
  try dsimp only
  rw [if_pos hsucc]
  try dsimp only
  constructor
  · rw [findDomain_updateDomain _ _ _ (fun e he => by simpa using he),
      findDomain_updateDomain _ _ _ (fun e he => by simpa using he), hentry]
    rfl
  · rw [getCert_updCert, hcert]
    rfl

/-- C4 witness: with a stored expiry of 1000, a successful renew stores
expiry 1000 + 90 days, independent of the clock reading 50. -/
theorem renew_compounds_prior_expiry_witness :
    findDomain (renew_certificate (fun _ => 0)
      { mock := { success_rate := 1, delay := 2,
                  certs := [("example.com",
                    { status := "issued", expires_at := 1000, issued_at := 0,
                      renewed_at := none, revoked_at := none })] },
        db := [{ domain := "example.com", enabled := true, state := "issued",
                 expires_at := some 1000, created_at := 0, updated_at := 0,
                 last_checked := none, last_error := none }],
        now := 50, ridx := 0 } "example.com").2.db ("example.com") =
      some { domain := "example.com", enabled := true, state := "renewed",
             expires_at := some (1000 + daysT 90), created_at := 0,
             updated_at := 52, last_checked := some 52, last_error := none }
    ∧ getCert (renew_certificate (fun _ => 0)
      { mock := { success_rate := 1, delay := 2,
                  certs := [("example.com",
                    { status := "issued", expires_at := 1000, issued_at := 0,
                      renewed_at := none, revoked_at := none })] },
        db := [{ domain := "example.com", enabled := true, state := "issued",
                 expires_at := some 1000, created_at := 0, updated_at := 0,
                 last_checked := none, last_error := none }],
        now := 50, ridx := 0 } "example.com").2.mock.certs ("example.com") =
      some { status := "issued", expires_at := 1000 + daysT 90, issued_at := 0,
             renewed_at := some 52, revoked_at := none } := by
  have h := renew_compounds_prior_expiry (fun _ => 0)
    { mock := { success_rate := 1, delay := 2,
                certs := [("example.com",
                  { status := "issued", expires_at := 1000, issued_at := 0,
                    renewed_at := none, revoked_at := none })] },
      db := [{ domain := "example.com", enabled := true, state := "issued",
               expires_at := some 1000, created_at := 0, updated_at := 0,
               last_checked := none, last_error := none }],
      now := 50, ridx := 0 } "example.com"
    { domain := "example.com", enabled := true, state := "issued",
      expires_at := some 1000, created_at := 0, updated_at := 0,
      last_checked := none, last_error := none }
    { status := "issued", expires_at := 1000, issued_at := 0,
      renewed_at := none, revoked_at := none }
    (by decide) (by decide) (by decide) (by norm_num)
  simpa using h

/-- C6: with success rate 1 and draws confined to [0, 1), an orchestrated
Issue on an existing domain in an allowed state ends with the record in
state `issued`, `last_error` null, and `expires_at` equal to the authority
record's `issued_at` plus exactly 90 days. -/
theorem issue_success_rate_one (rand : Nat → ℚ) (w : World) (domain : String)
    (entry : CertDomain)
    (hsr : w.mock.success_rate = 1)
    (_hrand0 : 0 ≤ rand w.ridx) (hrand1 : rand w.ridx < 1)
    (hentry : findDomain w.db domain = some entry)
    (hallowed : entry.state ∈ (["unissued", "failed", "expired"] : List String)) :
    ∃ cert, getCert (issue_certificate rand w domain).2.mock.certs domain = some cert
      ∧ cert.issued_at = w.now + w.mock.delay
      ∧ cert.expires_at = cert.issued_at + daysT 90
      ∧ findDomain (issue_certificate rand w domain).2.db domain =
        some { domain := entry.domain, enabled := entry.enabled,
               state := "issued", expires_at := some cert.expires_at,
               created_at := entry.created_at,
               updated_at := w.now + w.mock.delay,
               last_checked := some (w.now + w.mock.delay),
               last_error := none } := by
  have hsucc : rand w.ridx < w.mock.success_rate := by rw [hsr]; exact hrand1
  simp only [issue_certificate, hentry]
  rw [if_pos hallowed]
  simp only [perform_certificate_issuance, hentry]
  simp only [CertbotMock.issue_certificate]
  try dsimp only
  rw [if_pos hsucc]
  try dsimp only
  refine ⟨{ status := "issued", expires_at := w.now + w.mock.delay + daysT 90, issued_at := w.now + w.mock.delay, renewed_at := none, revoked_at := none }, ?_, rfl, rfl, ?_⟩
  · rw [getCert_setCert]
  · rw [findDomain_updateDomain _ _ _ (fun e he => by simpa using he),
      findDomain_updateDomain _ _ _ (fun e he => by simpa using he), hentry]
    rfl

/-- C6 witness: with success rate 1 and the zero draw, issuing for a fresh
unissued record yields state `issued`, no error, and expiry equal to the
authority issue time plus 90 days. -/
theorem issue_success_rate_one_witness :
    ∃ cert, getCert (issue_certificate (fun _ => 0)
      { mock := { success_rate := 1, delay := 3, certs := [] },
        db := [{ domain := "example.com", enabled := true, state := "unissued",
                 expires_at := none, created_at := 0, updated_at := 0,
                 last_checked := none, last_error := none }],
        now := 10, ridx := 0 } "example.com").2.mock.certs ("example.com") = some cert
      ∧ cert.issued_at = 10 + 3
      ∧ cert.expires_at = cert.issued_at + daysT 90
      ∧ findDomain (issue_certificate (fun _ => 0)
          { mock := { success_rate := 1, delay := 3, certs := [] },
            db := [{ domain := "example.com", enabled := true, state := "unissued",
                     expires_at := none, created_at := 0, updated_at := 0,
                     last_checked := none, last_error := none }],
            now := 10, ridx := 0 } "example.com").2.db ("example.com") =
        some { domain := "example.com", enabled := true, state := "issued",
               expires_at := some cert.expires_at, created_at := 0,
               updated_at := 10 + 3, last_checked := some (10 + 3),
               last_error := none } := by
  have h := issue_success_rate_one (fun _ => 0)
    { mock := { success_rate := 1, delay := 3, certs := [] },
      db := [{ domain := "example.com", enabled := true, state := "unissued",
               expires_at := none, created_at := 0, updated_at := 0,
               last_checked := none, last_error := none }],
      now := 10, ridx := 0 } "example.com"
    { domain := "example.com", enabled := true, state := "unissued",
      expires_at := none, created_at := 0, updated_at := 0,
      last_checked := none, last_error := none }
    (by norm_num) (by norm_num) (by norm_num) (by decide) (by decide)
  simpa using h

lemma check_status_db (w : World) (domain : String) (entry : CertDomain)
    (hentry : findDomain w.db domain = some entry) :
    findDomain (check_certificate_status w domain).2.db domain =
      some { domain := entry.domain, enabled := entry.enabled,
             state := if (CertbotMock.check_certificate w.mock domain w.now).2.1 = "expired" ∧ entry.state ≠ "expired" then ("expired") else entry.state,
             expires_at := match (CertbotMock.check_certificate w.mock domain w.now).2.2 with
               | some t => some t
               | none => entry.expires_at,
             created_at := entry.created_at,
             updated_at := if (CertbotMock.check_certificate w.mock domain w.now).2.1 = "expired" ∧ entry.state ≠ "expired" then w.now else entry.updated_at,
             last_checked := some w.now,
             last_error := entry.last_error } := by
  have hed : entry.domain = domain := findDomain_domain_eq hentry
  rcases hm : CertbotMock.check_certificate w.mock domain w.now with ⟨iv, st, ea⟩
  simp only [check_certificate_status, hentry, hm]
  dsimp only
  by_cases hcond : st = "expired" ∧ entry.state ≠ "expired"
  · cases ea with
    | none =>
        rw [if_pos hcond]
        rw [findDomain_updateDomain _ _ _ (fun e _ => by simpa using hed), hentry]
        simp [hcond]
    | some t =>
        rw [if_pos hcond]
        rw [findDomain_updateDomain _ _ _ (fun e _ => by simpa using hed), hentry]
        simp [hcond]
  · cases ea with
    | none =>
        rw [if_neg hcond]
        rw [findDomain_updateDomain _ _ _ (fun e _ => by simpa using hed), hentry]
        simp [hcond]
    | some t =>
        rw [if_neg hcond]
        rw [findDomain_updateDomain _ _ _ (fun e _ => by simpa using hed), hentry]
        simp [hcond]

/-- C7: for an existing domain, the Check operation always refreshes
`last_checked`, moves the state to `expired` exactly when the authority
reported status expired and the state was not already `expired` (also
refreshing `updated_at` then), overwrites `expires_at` exactly when the
authority returned an expiry, and changes nothing else on the record. -/
theorem check_reconciliation (w : World) (domain : String) (entry : CertDomain)
    (hentry : findDomain w.db domain = some entry) :
    findDomain (check_certificate_status w domain).2.db domain =
      some { domain := entry.domain, enabled := entry.enabled,
             state := if (CertbotMock.check_certificate w.mock domain w.now).2.1 = "expired" ∧ entry.state ≠ "expired" then ("expired") else entry.state,
             expires_at := match (CertbotMock.check_certificate w.mock domain w.now).2.2 with
               | some t => some t
               | none => entry.expires_at,
             created_at := entry.created_at,
             updated_at := if (CertbotMock.check_certificate w.mock domain w.now).2.1 = "expired" ∧ entry.state ≠ "expired" then w.now else entry.updated_at,
             last_checked := some w.now,
             last_error := entry.last_error } :=
  check_status_db w domain entry hentry

/-- C7 witness: a check against an empty authority store (status
not_found, no expiry) refreshes only `last_checked`. -/
theorem check_reconciliation_witness :
    findDomain (check_certificate_status
      { mock := { success_rate := 1, delay := 1, certs := [] },
        db := [{ domain := "example.com", enabled := true, state := "issued",
                 expires_at := some 500, created_at := 0, updated_at := 0,
                 last_checked := none, last_error := none }],
        now := 42, ridx := 0 } "example.com").2.db ("example.com") =
      some { domain := "example.com", enabled := true, state := "issued",
             expires_at := some 500, created_at := 0, updated_at := 0,
             last_checked := some 42, last_error := none } := by
  have h := check_reconciliation
    { mock := { success_rate := 1, delay := 1, certs := [] },
      db := [{ domain := "example.com", enabled := true, state := "issued",
               expires_at := some 500, created_at := 0, updated_at := 0,
               last_checked := none, last_error := none }],
      now := 42, ridx := 0 } "example.com"
    { domain := "example.com", enabled := true, state := "issued",
      expires_at := some 500, created_at := 0, updated_at := 0,
      last_checked := none, last_error := none } (by decide)
  simpa using h

/-- C5 counterexample: a record in state `revoked` whose authority record
is past expiry is moved to state `expired` by the Check operation, leaving
the set {revoked, invalid}. -/
theorem terminal_states_counterexample :
    (findDomain
      { mock := { success_rate := 1, delay := 1,
                  certs := [("example.com",
                    { status := "issued", expires_at := 10, issued_at := 0,
                      renewed_at := none, revoked_at := none })] },
        db := [{ domain := "example.com", enabled := true, state := "revoked",
                 expires_at := some 10, created_at := 0, updated_at := 0,
                 last_checked := none, last_error := none }],
        now := 100, ridx := 0 : World }.db ("example.com")).map
        (fun e => e.state) = some ("revoked")
    ∧ (findDomain (applyOp (fun _ => 0)
      { mock := { success_rate := 1, delay := 1,
                  certs := [("example.com",
                    { status := "issued", expires_at := 10, issued_at := 0,
                      renewed_at := none, revoked_at := none })] },
        db := [{ domain := "example.com", enabled := true, state := "revoked",
                 expires_at := some 10, created_at := 0, updated_at := 0,
                 last_checked := none, last_error := none }],
        now := 100, ridx := 0 } (ApiOp.check ("example.com"))).db
        "example.com").map (fun e => e.state) = some ("expired") := by
  constructor
  · rfl
  · rfl

/-- C5 amended: an API operation addressed to a record in state `revoked`
or `invalid` leaves that record's state in {revoked, invalid}, with one
exception forced by the code: the Check operation moves such a record to
`expired` when the authority reports its certificate expired. -/
theorem terminal_states_amended (rand : Nat → ℚ) (w : World) (op : ApiOp)
    (d : String) (entry : CertDomain)
    (hd : opDomain op = some d)
    (hentry : findDomain w.db d = some entry)
    (hterm : entry.state = "revoked" ∨ entry.state = "invalid") :
    ∀ e, findDomain (applyOp rand w op).db d = some e →
      (e.state = "revoked" ∨ e.state = "invalid") ∨
      (op = ApiOp.check d ∧
        (CertbotMock.check_certificate w.mock d w.now).2.1 = "expired" ∧
        e.state = "expired") := by
  cases op with
  | addDomain d0 =>
      have hdd : d0 = d := by simpa [opDomain] using hd
      subst hdd
      simp only [applyOp, add_domain, hentry]
      intro e he
      injection he with he2
      subst he2
      exact Or.inl hterm
  | listDomains => simp [opDomain] at hd
  | transition d0 ev =>
      have hdd : d0 = d := by simpa [opDomain] using hd
      subst hdd
      simp only [applyOp, transition_domain, hentry]
      cases ha : applyFSM entry.state ev with
      | error e0 =>
          intro e he
          rw [hentry] at he
          injection he with he2
          subst he2
          exact Or.inl hterm
      | ok ns =>
          intro e he
          rw [findDomain_updateDomain _ _ _ (fun e2 he2 => by simpa using he2),
            hentry] at he
          injection he with he2
          subst he2
          exact Or.inl (applyFSM_terminal hterm ha)
  | issue d0 =>
      have hdd : d0 = d := by simpa [opDomain] using hd
      subst hdd
      have hnot : entry.state ∉ (["unissued", "failed", "expired"] : List String) := by
        rcases hterm with h1 | h1 <;> simp [h1]
      simp only [applyOp, issue_certificate, hentry]
      rw [if_neg hnot]
      intro e he
      rw [hentry] at he
      injection he with he2
      subst he2
      exact Or.inl hterm
  | renew d0 =>
      have hdd : d0 = d := by simpa [opDomain] using hd
      subst hdd
      have hnot : entry.state ∉ (["issued"] : List String) := by
        rcases hterm with h1 | h1 <;> simp [h1]
      simp only [applyOp, renew_certificate, hentry]
      rw [if_neg hnot]
      intro e he
      rw [hentry] at he
      injection he with he2
      subst he2
      exact Or.inl hterm
  | revoke d0 =>
      have hdd : d0 = d := by simpa [opDomain] using hd
      subst hdd
      have hnot : entry.state ∉ (["issued", "renewed"] : List String) := by
        rcases hterm with h1 | h1 <;> simp [h1]
      simp only [applyOp, revoke_certificate, hentry]
      rw [if_neg hnot]
      intro e he
      rw [hentry] at he
      injection he with he2
      subst he2
      exact Or.inl hterm
  | check d0 =>
      have hdd : d0 = d := by simpa [opDomain] using hd
      subst hdd
      intro e he
      have hdb := check_status_db w d0 entry hentry
      rw [show applyOp rand w (ApiOp.check d0) = (check_certificate_status w d0).2 from rfl] at he
      rw [hdb] at he
      injection he with he2
      subst he2
      by_cases hcond : (CertbotMock.check_certificate w.mock d0 w.now).2.1 = "expired" ∧ entry.state ≠ "expired"
      · right
        refine ⟨rfl, hcond.1, ?_⟩
        simp [hcond]
      · left
        simp only [if_neg hcond]
        exact hterm

/-- C5 amended witness: a revoke request against a revoked record leaves
it revoked. -/
theorem terminal_states_amended_witness :
    (({ domain := "example.com", enabled := true, state := "revoked",
        expires_at := none, created_at := 0, updated_at := 0,
        last_checked := none, last_error := none } : CertDomain).state = "revoked"
      ∨ ({ domain := "example.com", enabled := true, state := "revoked",
           expires_at := none, created_at := 0, updated_at := 0,
           last_checked := none, last_error := none } : CertDomain).state = "invalid") ∨
    (ApiOp.revoke ("example.com") = ApiOp.check ("example.com") ∧
      (CertbotMock.check_certificate
        { success_rate := 1, delay := 1, certs := [] } "example.com" 0).2.1 =
        "expired" ∧
      ({ domain := "example.com", enabled := true, state := "revoked",
         expires_at := none, created_at := 0, updated_at := 0,
         last_checked := none, last_error := none } : CertDomain).state = "expired") :=
  terminal_states_amended (fun _ => 0)
    { mock := { success_rate := 1, delay := 1, certs := [] },
      db := [{ domain := "example.com", enabled := true, state := "revoked",
               expires_at := none, created_at := 0, updated_at := 0,
               last_checked := none, last_error := none }],
      now := 0, ridx := 0 } (ApiOp.revoke ("example.com")) "example.com"
    { domain := "example.com", enabled := true, state := "revoked",
      expires_at := none, created_at := 0, updated_at := 0,
      last_checked := none, last_error := none }
    (by decide) (by decide) (Or.inl (by decide))
    { domain := "example.com", enabled := true, state := "revoked",
      expires_at := none, created_at := 0, updated_at := 0,
      last_checked := none, last_error := none }
    (by decide)

end Cuttle
